import Mathlib

/-!
Verification of the node/edge data model of the nnvm graph IR
(src/nnvm/include/nnvm/node.h): the types NodeAttrs, NodeEntry, Node,
and the arity-resolution members is_variable, num_inputs, num_outputs,
together with the factory Node::Create.

Machine integers (uint32_t) are modelled as Nat: the header performs no
arithmetic on them, it only stores and returns them, so no overflow can
occur. The shared_ptr references are modelled as direct values, and the
type-erased slot NodeAttrs.parsed is modelled with a type parameter.
-/

namespace NNVM

/-- NodeAttrs from node.h: the attributes of an operation node. The
field parsed is the type-erased slot (dmlc any in the source), modelled
by a type parameter for the operator-specific parsed payload; it is
absent (none) until an external parser populates it. -/
structure NodeAttrs (α : Type) where
  name : String
  scalars : List Float
  dict : List (String × String)
  parsed : Option α

/-- Modelled from the spec: the operator descriptor Op is declared in
op.h, which is not among the provided sources. Section 6 of the spec
says the registry supplies, for each operator, a static input/output
count and optionally dynamic-arity callbacks taking NodeAttrs and
returning a count; these are exactly the four fields node.h reads:
op->num_inputs, op->num_outputs, op->get_num_inputs,
op->get_num_outputs, the callbacks being nullable. -/
structure Op (α : Type) where
  num_inputs : Nat
  num_outputs : Nat
  get_num_inputs : Option (NodeAttrs α → Nat)
  get_num_outputs : Option (NodeAttrs α → Nat)

/-- NodeEntry from node.h, parameterised by the node-reference type so
that it can be nested inside the Node inductive: a source node, the
index of the output taken from it, and the variable version counter. -/
structure NodeEntryOf (ν : Type) where
  node : ν
  index : Nat
  version : Nat

/-- Node from node.h: the operator in use (nullptr, i.e. none, marks a
placeholder variable), the data inputs, the control dependencies and
the attribute record. The shared_ptr indirection of NodePtr is modelled
by storing nodes directly. -/
inductive Node (α : Type) : Type where
  | mk : Option (Op α) → List (NodeEntryOf (Node α)) → List (Node α) →
      NodeAttrs α → Node α

/-- NodeEntry proper: a NodeEntryOf whose node reference is a Node. -/
abbrev NodeEntry (α : Type) : Type := NodeEntryOf (Node α)

variable {α : Type}

/-- Field op of Node. -/
def Node.op : Node α → Option (Op α)
  | .mk o _ _ _ => o

/-- Field inputs of Node. -/
def Node.inputs : Node α → List (NodeEntry α)
  | .mk _ i _ _ => i

/-- Field control_deps of Node. -/
def Node.control_deps : Node α → List (Node α)
  | .mk _ _ c _ => c

/-- Field attrs of Node. -/
def Node.attrs : Node α → NodeAttrs α
  | .mk _ _ _ a => a

/-- Field update for attrs, modelling an assignment to node.attrs. -/
def Node.set_attrs : Node α → NodeAttrs α → Node α
  | .mk o i c _, a => .mk o i c a

/-- Node::is_variable from node.h line 102: return this->op == nullptr. -/
def Node.is_variable (n : Node α) : Bool :=
  n.op.isNone

/-- Node::num_outputs from node.h line 106: if is_variable() return 1;
otherwise, if op->get_num_outputs is null return op->num_outputs, else
return op->get_num_outputs(attrs). The early variable return is the
op = none case of the match, since is_variable is exactly op == null. -/
def Node.num_outputs (n : Node α) : Nat :=
  match n.op with
  | none => 1
  | some op =>
    match op.get_num_outputs with
    | none => op.num_outputs
    | some f => f n.attrs

/-- Node::num_inputs from node.h line 115, symmetric to num_outputs. -/
def Node.num_inputs (n : Node α) : Nat :=
  match n.op with
  | none => 1
  | some op =>
    match op.get_num_inputs with
    | none => op.num_inputs
    | some f => f n.attrs

/-- Modelled from the spec: Node::Create is declared in node.h line 98
but its body is outside the provided sources. Section 4.2 of the spec
says the factory produces a new node with all fields default, which by
the member initialisers of node.h means op = nullptr, empty inputs and
control_deps, and a default-initialised NodeAttrs: empty name, no
scalars, empty dict, parsed absent. -/
def Node.Create : Node α :=
  .mk none [] [] ⟨"", [], [], none⟩

/-- Instrumented Node::num_outputs mirroring the source control flow:
the count is paired with a flag recording whether the body
dereferenced the operator descriptor (any this->op-> access), and a
dereference of a null op yields none instead of undefined behaviour.
The is_variable guard is evaluated first, exactly as in the source. -/
def Node.num_outputs_instr (n : Node α) : Option (Nat × Bool) :=
  if n.is_variable then some (1, false)
  else
    n.op.map fun op =>
      (match op.get_num_outputs with
        | none => op.num_outputs
        | some f => f n.attrs,
       true)

/-- Instrumented Node::num_inputs, symmetric to num_outputs_instr. -/
def Node.num_inputs_instr (n : Node α) : Option (Nat × Bool) :=
  if n.is_variable then some (1, false)
  else
    n.op.map fun op =>
      (match op.get_num_inputs with
        | none => op.num_inputs
        | some f => f n.attrs,
       true)

/-- A call to the const member Node::num_outputs viewed as a state
transformer on the node: each return path of the body is written out,
pairing the computed count with the node state after the call. The
body only reads fields, so every path returns the node it was given. -/
def Node.num_outputs_call (n : Node α) : Nat × Node α :=
  match n.op with
  | none => (1, n)
  | some op =>
    match op.get_num_outputs with
    | none => (op.num_outputs, n)
    | some f => (f n.attrs, n)

/-- A call to the const member Node::num_inputs viewed as a state
transformer, symmetric to num_outputs_call. -/
def Node.num_inputs_call (n : Node α) : Nat × Node α :=
  match n.op with
  | none => (1, n)
  | some op =>
    match op.get_num_inputs with
    | none => (op.num_inputs, n)
    | some f => (f n.attrs, n)

/-- A sample attribute record with every field nonempty. -/
def attrsX : NodeAttrs Unit :=
  ⟨"x", [], [("k", "v")], some ()⟩

/-- A bare placeholder variable node. -/
def varNode : Node Unit :=
  .mk none [] [] ⟨"w", [], [], none⟩

/-- A placeholder variable node that nevertheless carries attrs, an
input entry and a control dependency, exercising the claim that arity
of a variable node ignores all of these. -/
def varNodeBusy : Node Unit :=
  .mk none [⟨varNode, 0, 0⟩] [varNode] attrsX

/-- An operator with fixed static arity: 2 inputs, 1 output, no
dynamic callbacks. -/
def addOp : Op Unit :=
  ⟨2, 1, none, none⟩

/-- An operator node using the static-arity operator addOp. -/
def addNode : Node Unit :=
  .mk (some addOp) [⟨varNode, 0, 0⟩, ⟨varNode, 0, 1⟩] [] ⟨"a", [], [], none⟩

/-- A dynamic-arity callback: the count is read off the attribute
dictionary (its size plus one). -/
def splitCount (a : NodeAttrs Unit) : Nat :=
  a.dict.length + 1

/-- An operator whose input and output counts both come from the
dynamic callback splitCount; its static counts are decoys. -/
def splitOp : Op Unit :=
  ⟨1, 1, some splitCount, some splitCount⟩

/-- An operator node using the dynamic-arity operator splitOp, with a
one-entry dictionary, so its effective arity is 2. -/
def splitNode : Node Unit :=
  .mk (some splitOp) [⟨varNode, 0, 0⟩] [] ⟨"s", [], [("n", "3")], none⟩

/-- A replacement attribute record with a two-entry dictionary, so the
effective arity of splitNode after the update becomes 3. -/
def attrsTwo : NodeAttrs Unit :=
  ⟨"s", [], [("n", "3"), ("m", "4")], none⟩

/-- Helper: is_variable is exactly the test op == nullptr. -/
theorem Node.is_variable_none {n : Node α} : n.is_variable = true ↔ n.op = none := by
  cases n with
  | mk o i c a => cases o <;> simp [Node.is_variable, Node.op]

/-- Helper: a node rebuilt with some attrs keeps its op field. -/
theorem Node.set_attrs_op (n : Node α) (a : NodeAttrs α) : (n.set_attrs a).op = n.op := by
  cases n with
  | mk o i c a0 => rfl

/-- Helper: a node rebuilt with some attrs holds exactly those attrs. -/
theorem Node.set_attrs_attrs (n : Node α) (a : NodeAttrs α) : (n.set_attrs a).attrs = a := by
  cases n with
  | mk o i c a0 => rfl

/-- C1: a placeholder variable node (op absent) satisfies
is_variable() == true, num_inputs() == 1 and num_outputs() == 1,
whatever its attrs, inputs and control_deps hold. -/
theorem variable_arity (n : Node α) (h : n.op = none) :
    n.is_variable = true ∧ n.num_inputs = 1 ∧ n.num_outputs = 1 := by
  refine ⟨Node.is_variable_none.mpr h, ?_, ?_⟩ <;>
    simp [Node.num_inputs, Node.num_outputs, h]

/-- C1 witness: the variable node varNodeBusy, which has nonempty
attrs, a data input and a control dependency, still reports
is_variable and arity one on both sides. -/
theorem variable_arity_witness :
    varNodeBusy.is_variable = true ∧ varNodeBusy.num_inputs = 1 ∧
    varNodeBusy.num_outputs = 1 :=
  variable_arity varNodeBusy rfl

/-- C2: on an operator node whose operator supplies a dynamic-arity
callback, num_outputs() (resp. num_inputs()) is the callback applied
to the current attrs, and after any replacement of attrs the next
query returns the callback of the new attrs: no stale caching. -/
theorem dynamic_arity (n : Node α) (o : Op α) (f : NodeAttrs α → Nat)
    (ho : n.op = some o) :
    (o.get_num_outputs = some f →
      n.num_outputs = f n.attrs ∧ ∀ a, (n.set_attrs a).num_outputs = f a) ∧
    (o.get_num_inputs = some f →
      n.num_inputs = f n.attrs ∧ ∀ a, (n.set_attrs a).num_inputs = f a) := by
  constructor
  · intro hf
    constructor
    · simp [Node.num_outputs, ho, hf]
    · intro a
      simp [Node.num_outputs, Node.set_attrs_op, Node.set_attrs_attrs, ho, hf]
  · intro hf
    constructor
    · simp [Node.num_inputs, ho, hf]
    · intro a
      simp [Node.num_inputs, Node.set_attrs_op, Node.set_attrs_attrs, ho, hf]

/-- C2 witness: splitNode uses the callback splitCount on both sides;
with its one-entry dictionary the arity is 2, and after replacing the
attrs by the two-entry attrsTwo the very next query returns 3. -/
theorem dynamic_arity_witness :
    splitNode.num_outputs = 2 ∧ (splitNode.set_attrs attrsTwo).num_outputs = 3 ∧
    splitNode.num_inputs = 2 ∧ (splitNode.set_attrs attrsTwo).num_inputs = 3 := by
  have h := dynamic_arity splitNode splitOp splitCount rfl
  exact ⟨(h.1 rfl).1.trans rfl, ((h.1 rfl).2 attrsTwo).trans rfl,
    (h.2 rfl).1.trans rfl, ((h.2 rfl).2 attrsTwo).trans rfl⟩

/-- C3: on an operator node whose operator has no dynamic callback,
num_outputs() (resp. num_inputs()) is the static count of the
operator, for the current attrs and for every replacement of them. -/
theorem static_arity (n : Node α) (o : Op α) (ho : n.op = some o) :
    (o.get_num_outputs = none →
      n.num_outputs = o.num_outputs ∧
        ∀ a, (n.set_attrs a).num_outputs = o.num_outputs) ∧
    (o.get_num_inputs = none →
      n.num_inputs = o.num_inputs ∧
        ∀ a, (n.set_attrs a).num_inputs = o.num_inputs) := by
  constructor
  · intro hf
    constructor
    · simp [Node.num_outputs, ho, hf]
    · intro a
      simp [Node.num_outputs, Node.set_attrs_op, ho, hf]
  · intro hf
    constructor
    · simp [Node.num_inputs, ho, hf]
    · intro a
      simp [Node.num_inputs, Node.set_attrs_op, ho, hf]

/-- C3 witness: addNode uses addOp, which has static counts 2 inputs
and 1 output and no callbacks; the queries return those counts, also
after replacing the attrs by attrsX. -/
theorem static_arity_witness :
    addNode.num_outputs = 1 ∧ (addNode.set_attrs attrsX).num_outputs = 1 ∧
    addNode.num_inputs = 2 ∧ (addNode.set_attrs attrsX).num_inputs = 2 := by
  have h := static_arity addNode addOp rfl
  exact ⟨(h.1 rfl).1, (h.1 rfl).2 attrsX, (h.2 rfl).1, (h.2 rfl).2 attrsX⟩

/-- C4: is_variable() returns true exactly when op is absent. -/
theorem is_variable_iff (n : Node α) : n.is_variable = true ↔ n.op = none :=
  Node.is_variable_none

/-- C5: building a NodeEntry from a node, an index and a version and
reading the fields back yields exactly the three values given. -/
theorem node_entry_roundtrip (N : Node α) (i v : Nat) :
    (NodeEntryOf.mk N i v).node = N ∧ (NodeEntryOf.mk N i v).index = i ∧
    (NodeEntryOf.mk N i v).version = v :=
  ⟨rfl, rfl, rfl⟩

/-- C6: the factory produces a node with no operator, empty inputs and
control_deps, and default attrs: empty name, no scalars, empty dict,
parsed absent; construction is total, performing no validation. -/
theorem create_default :
    (@Node.Create α).op = none ∧ (@Node.Create α).inputs = [] ∧
    (@Node.Create α).control_deps = [] ∧ (@Node.Create α).attrs.name = "" ∧
    (@Node.Create α).attrs.scalars = [] ∧ (@Node.Create α).attrs.dict = [] ∧
    (@Node.Create α).attrs.parsed = none :=
  ⟨rfl, rfl, rfl, rfl, rfl, rfl, rfl⟩

/-- C7: the arity queries are side-effect-free and idempotent: viewed
as state transformers they return the node unchanged, their value is
the pure query, and a second call right after the first returns the
same value again. -/
theorem arity_queries_pure (n : Node α) :
    n.num_outputs_call.2 = n ∧ n.num_inputs_call.2 = n ∧
    n.num_outputs_call.1 = n.num_outputs ∧ n.num_inputs_call.1 = n.num_inputs ∧
    (n.num_outputs_call.2).num_outputs_call.1 = n.num_outputs_call.1 ∧
    (n.num_inputs_call.2).num_inputs_call.1 = n.num_inputs_call.1 := by
  have hout : n.num_outputs_call = (n.num_outputs, n) := by
    cases n with
    | mk o i c a =>
      cases o with
      | none => rfl
      | some op =>
        cases hf : op.get_num_outputs <;>
          simp [Node.num_outputs_call, Node.num_outputs, Node.op, Node.attrs, hf]
  have hin : n.num_inputs_call = (n.num_inputs, n) := by
    cases n with
    | mk o i c a =>
      cases o with
      | none => rfl
      | some op =>
        cases hf : op.get_num_inputs <;>
          simp [Node.num_inputs_call, Node.num_inputs, Node.op, Node.attrs, hf]
  simp [hout, hin]

/-- C8: NodeEntry construction with an out-of-range index, or with a
nonzero version on a non-variable node, still succeeds and stores the
given values unchanged: the core neither rejects nor corrects them. -/
theorem entry_unchecked (n : Node α) (i v : Nat)
    (_h : n.num_outputs ≤ i ∨ (v ≠ 0 ∧ n.is_variable = false)) :
    (NodeEntryOf.mk n i v).node = n ∧ (NodeEntryOf.mk n i v).index = i ∧
    (NodeEntryOf.mk n i v).version = v :=
  ⟨rfl, rfl, rfl⟩

/-- C8 witness: addNode has one output and is not a variable, yet the
entry with index 5 and version 7 is built and keeps those values. -/
theorem entry_unchecked_witness :
    addNode.num_outputs ≤ 5 ∧ (7 : Nat) ≠ 0 ∧ addNode.is_variable = false ∧
    ((NodeEntryOf.mk addNode 5 7).node = addNode ∧
      (NodeEntryOf.mk addNode 5 7).index = 5 ∧
      (NodeEntryOf.mk addNode 5 7).version = 7) :=
  ⟨by decide, by decide, by decide,
    entry_unchecked addNode 5 7 (Or.inr ⟨by decide, by decide⟩)⟩

/-- C10: on a placeholder variable node both arity queries return from
the is_variable guard: the instrumented bodies report the correct
count with the op-dereference flag false, so the branches that read
the operator descriptor are never reached. -/
theorem variable_no_deref (n : Node α) (h : n.is_variable = true) :
    n.num_outputs_instr = some (n.num_outputs, false) ∧
    n.num_inputs_instr = some (n.num_inputs, false) := by
  have ho : n.op = none := Node.is_variable_none.mp h
  constructor <;>
    simp [Node.num_outputs_instr, Node.num_inputs_instr, Node.num_outputs,
      Node.num_inputs, h, ho]

/-- C10 witness: on the variable node varNodeBusy both instrumented
queries return count 1 with the dereference flag false. -/
theorem variable_no_deref_witness :
    varNodeBusy.num_outputs_instr = some (1, false) ∧
    varNodeBusy.num_inputs_instr = some (1, false) := by
  have h := variable_no_deref varNodeBusy rfl
  exact ⟨h.1.trans rfl, h.2.trans rfl⟩

end NNVM
